/-
Verification of the Vastu report-orchestration server.

The JavaScript source (src/server.js, plus two earlier revisions of the same
file under src/unnamed/) is shallowly embedded below:

* JS numbers are modelled as exact rationals (`ℚ`) plus an explicit `NaN`
  constructor (`JsNum`);
* the JS `%` operator (remainder, sign of the dividend, via truncated
  division) is `jsRem`;
* JS array indexing with a possibly out-of-range or negative index, which
  yields `undefined`, is `jsArrayGet : List String → ℤ → Option String`;
* fallible external calls are parameterized by an oracle outcome (`FetchOutcome`)
  and the request handlers become pure functions of the request plus those
  outcomes.
-/
import Mathlib

namespace VastuServer

/-- Truncation toward zero of a rational, `Math.trunc` / the implicit
truncated division underlying the JS `%` operator. -/
def qtrunc (q : ℚ) : ℤ :=
  if 0 ≤ q then ⌊q⌋ else -⌊-q⌋

/-- The JS remainder operator `x % y` on finite numbers: the result has the
sign of the dividend, `x % y = x - y * trunc(x / y)`. -/
def jsRem (x y : ℚ) : ℚ :=
  x - y * (qtrunc (x / y) : ℚ)

/-- Mathematical modulo on rationals (always in `[0, y)` for `y > 0`); used
to state the spec-side notions such as distance to a zone boundary. -/
def qmod (x y : ℚ) : ℚ :=
  x - y * (⌊x / y⌋ : ℚ)

/-- A JS number: an exact rational or `NaN`. -/
inductive JsNum where
  | num (q : ℚ)
  | nan
deriving DecidableEq

/-- JS addition: `NaN` propagates. -/
def jsAdd : JsNum → JsNum → JsNum
  | .num a, .num b => .num (a + b)
  | _, _ => .nan

/-- JS subtraction: `NaN` propagates. -/
def jsSub : JsNum → JsNum → JsNum
  | .num a, .num b => .num (a - b)
  | _, _ => .nan

/-- The JS `%` on possibly-NaN numbers (`NaN % y`, `x % 0` and `x % NaN` are
all `NaN`). -/
def jsRemN : JsNum → JsNum → JsNum
  | .num a, .num b => if b = 0 then .nan else .num (jsRem a b)
  | _, _ => .nan

/-- JS strict inequality `n !== 0` for a number: true for `NaN` (which is
`!==` everything) and for every non-zero rational. -/
def jsNeqZero : JsNum → Bool
  | .num q => decide (q ≠ 0)
  | .nan => true

/-- `VASTU_ZONES_16` (src/server.js:20-23): the 16 fixed zone labels. -/
def VASTU_ZONES_16 : List String :=
  ["N", "NNE", "NE", "ENE", "E", "ESE", "SE", "SSE",
   "S", "SSW", "SW", "WSW", "W", "WNW", "NW", "NNW"]

/-- JS array read `arr[i]` with an integer index: `undefined` (`none`) when
the index is negative or past the end. -/
def jsArrayGet (l : List String) (i : ℤ) : Option String :=
  if 0 ≤ i then l[i.toNat]? else none

/-- `getVastuZone` (src/server.js:25-29) on a finite (non-NaN) number:
`Math.floor(((degrees + 11.25) % 360) / 22.5)` then `index % 16` (JS `%`,
i.e. `Int.tmod`) into the zone table.  For inputs below `-11.25` the JS
remainder is negative and the lookup index is usually negative, so the array
read yields `undefined` (`none`), e.g. at `-20`; except that where the
floored index is a multiple of 16 (JS `-16 % 16` is `-0`, and `arr[-0]` is
`arr[0]`) the result wraps to `"N"`, e.g. at `-350`. -/
def getVastuZoneQ (degrees : ℚ) : Option String :=
  let offset : ℚ := 11.25
  let index : ℤ := ⌊jsRem (degrees + offset) 360 / 22.5⌋
  jsArrayGet VASTU_ZONES_16 (Int.tmod index 16)

/-- `getVastuZone` on a JS number.  On `NaN` every arithmetic step stays
`NaN`, `Math.floor(NaN)` is `NaN` and `VASTU_ZONES_16[NaN]` is `undefined`,
so the result is `none`. -/
def getVastuZoneN : JsNum → Option String
  | .num q => getVastuZoneQ q
  | .nan => none

/-- A JS value as it can arrive in the request's `roomLocationInHouse`
field: a number (possibly `NaN`), a string, or `undefined`/missing. -/
inductive JsValue where
  | number (n : JsNum)
  | str (s : String)
  | undef
deriving DecidableEq

/-- `typeof v === 'number'` (true for `NaN` as well). -/
def isNumberV : JsValue → Bool
  | .number _ => true
  | _ => false

/-- JS truthiness test used by `x || 'UNKNOWN'`-style fallbacks: `0`, `NaN`,
`""` and `undefined` are falsy. -/
def jsFalsy : JsValue → Bool
  | .number (.num q) => decide (q = 0)
  | .number .nan => true
  | .str s => decide (s = "")
  | .undef => true

/-- Decimal digits of the fractional part of a nonnegative rational, with
fuel (enough for the exact decimals this model manipulates). -/
def fracDigits : Nat → ℚ → String
  | 0, _ => ""
  | n + 1, q =>
    if q = 0 then ""
    else
      let d : ℤ := ⌊q * 10⌋
      toString d ++ fracDigits n (q * 10 - (d : ℚ))

/-- Decimal rendering of a rational, standing in for JS number-to-string
conversion when a number is interpolated into a template literal.  Exact for
terminating decimals, which are the only numbers the templates render; no
theorem depends on its output. -/
def ratDisplay (q : ℚ) : String :=
  let sign := if q < 0 then "-" else ""
  let a := |q|
  let ip : ℤ := ⌊a⌋
  let fp := a - (ip : ℚ)
  if fp = 0 then sign ++ toString ip
  else sign ++ toString ip ++ "." ++ fracDigits 20 fp

/-- Interpolation of a JS value into a template literal (`undefined` prints
as "undefined", `NaN` as "NaN"). -/
def jsDisplay : JsValue → String
  | .number (.num q) => ratDisplay q
  | .number .nan => "NaN"
  | .str s => s
  | .undef => "undefined"

/-- `Number.prototype.toFixed(1)`: round to one decimal digit, ties toward
the larger value, i.e. `⌊q * 10 + 1/2⌋`. -/
def jsToFixed1Q (q : ℚ) : String :=
  let n : ℤ := ⌊q * 10 + 1 / 2⌋
  (if n < 0 then "-" else "") ++ toString (n.natAbs / 10) ++ "." ++ toString (n.natAbs % 10)

/-- `toFixed(1)` on a JS number. -/
def jsToFixed1 : JsNum → String
  | .num q => jsToFixed1Q q
  | .nan => "NaN"

/-- Interpolation of a zone classification (`undefined` prints as the string
"undefined") into the cusp-warning template. -/
def zoneText : Option String → String
  | some s => s
  | none => "undefined"

/-- `zone1` of the route's cusp logic (src/server.js:183):
`getVastuZone(userAngle)`. -/
def cuspZone1 (n : JsNum) : Option String :=
  getVastuZoneN n

/-- `zone2` of the route's cusp logic (src/server.js:184):
`getVastuZone((userAngle + 10.0) % 360)`. -/
def cuspZone2 (n : JsNum) : Option String :=
  getVastuZoneN (jsRemN (jsAdd n (.num 10)) (.num 360))

/-- `zone3` of the route's cusp logic (src/server.js:185):
`getVastuZone((userAngle - 10.0 + 360) % 360)`. -/
def cuspZone3 (n : JsNum) : Option String :=
  getVastuZoneN (jsRemN (jsAdd (jsSub n (.num 10)) (.num 360)) (.num 360))

/-- The data interpolated into the route's cusp-warning template when the
warning fires: the locked angle, the primary zone and the alternate zone. -/
structure CuspData where
  angle : JsNum
  zone1 : Option String
  otherZone : Option String
deriving DecidableEq

/-- The cusp-warning logic of `POST /api/generateReport`
(src/server.js:179-203).  Returns `some` exactly when the source assigns a
non-empty `cuspWarning` string: the value must be of number type and `!== 0`,
and `zone1 !== zone2 || zone1 !== zone3`; `otherZone` is
`(zone1 !== zone2) ? zone2 : zone3`. -/
def computeCusp (userAngle : JsValue) : Option CuspData :=
  match userAngle with
  | .number n =>
    if jsNeqZero n then
      let z1 := cuspZone1 n
      let z2 := cuspZone2 n
      let z3 := cuspZone3 n
      if z1 ≠ z2 ∨ z1 ≠ z3 then
        some ⟨n, z1, if z1 ≠ z2 then z2 else z3⟩
      else none
    else none
  | _ => none

/-- The cusp-warning template literal (src/server.js:190-201) applied to the
interpolated data. -/
def renderCuspWarning (w : CuspData) : String :=
  "\n                    **CRITICAL WARNING: CUSP DETECTION**\n" ++
  "                    The user\x27s locked angle of **" ++ jsToFixed1 w.angle ++
  "°** is on the border of two Vastu zones.\n" ++
  "                    Your analysis **MUST** address this. Start your report with this warning:\n" ++
  "                    \n" ++
  "                    \"**Warning: Potential Inaccuracy Detected**\n" ++
  "                    Your room\x27s locked direction is on the border of the **" ++
  zoneText w.zone1 ++ "** and **" ++ zoneText w.otherZone ++ "** zones.\"\n" ++
  "                    \n" ++
  "                    Then, in your main analysis (for the standard report), you MUST also add a *brief* section titled:\n" ++
  "                    **\"VI. Cusp Analysis (" ++ zoneText w.otherZone ++ " Zone)\"**\n" ++
  "                    Briefly list 2-3 key Vastu defects that would apply if the room were in the **" ++
  zoneText w.otherZone ++ "** zone instead.\n                "

/-- The `cuspWarning` string variable of the route: empty when the logic does
not fire, the rendered template otherwise. -/
def cuspWarningString (userAngle : JsValue) : String :=
  ((computeCusp userAngle).map renderCuspWarning).getD ""

/-- Characters removed by `stripEmojis` (src/server.js:14-17).  The regex
alternatives are the copyright and registered-mark code points, the class
from U+2000 to U+3300, and three high-surrogate escapes each followed by a
low-side class.  The regex runs with the `u` flag, so it matches whole code
points: the surrogate alternatives can only match unpaired surrogates, which
do not occur in well-formed text (and are not representable as Lean `Char`s),
so over scalar values the ruleset is `U+00A9`, `U+00AE` and the block
`U+2000`..`U+3300`. -/
def isStrippedChar (c : Char) : Bool :=
  c.val = 0xa9 || c.val = 0xae || (0x2000 ≤ c.val && c.val ≤ 0x3300)

/-- `stripEmojis` (src/server.js:14-17): delete every matched character.
The `if (!str) return ''` guard is the identity on well-typed strings
(the empty string maps to itself either way). -/
def stripEmojis (s : String) : String :=
  ⟨s.data.filter (fun c => !isStrippedChar c)⟩

/-- One entry of the chat history: `{ role, parts: [{ text }] }`; the parts
are modelled by their text fields. -/
structure ChatMessage where
  role : String
  parts : List String
deriving DecidableEq

/-- The per-message step of `sanitizedHistory` (src/server.js:270-281): a
user message is rebuilt as `{ role: 'user', parts: [{ text: stripEmojis(parts[0].text) }] }`;
any other message is passed through unchanged.  Reading `parts[0].text` of a
user message with no parts throws in JS, hence `none` in that case. -/
def sanitizeMessage : ChatMessage → Option ChatMessage
  | m =>
    if m.role = "user" then
      match m.parts with
      | [] => none
      | t :: _ => some ⟨"user", [stripEmojis t]⟩
    else some m

/-- `sanitizedHistory = chatHistory.map(...)` (src/server.js:270-281); the
whole map throws (yields `none`) as soon as one element does. -/
def sanitizeHistory : List ChatMessage → Option (List ChatMessage)
  | [] => some []
  | m :: rest => do
    let m' ← sanitizeMessage m
    let rest' ← sanitizeHistory rest
    pure (m' :: rest')

/-- The sanitization described by the spec: user-authored entries have the
matched characters removed from their text, model-authored entries are
forwarded unmodified. -/
def specSanitizeMessage (m : ChatMessage) : ChatMessage :=
  if m.role = "user" then ⟨m.role, m.parts.map stripEmojis⟩ else m

/-- One captured frame of the scan: base64 image data, compass heading and
the zone label the client recorded. -/
structure Frame where
  image : String
  heading : ℚ
  zone : String
deriving DecidableEq

/-- The `scanData` object of a report request. -/
structure ScanData where
  currentRoomTag : String
  roomLocationInHouse : JsValue
  floorNumber : JsValue
  holisticIssues : String
  holisticSurroundings : String
  capturedFrames : List Frame
deriving DecidableEq

/-- One content part of a model request: inline image data or text. -/
inductive Part where
  | inlineData (mimeType : String) (data : String)
  | text (t : String)
deriving DecidableEq

/-- The `imageParts` array built by the route (src/server.js:205-214): per
frame an inline-data part plus a caption, or a single placeholder text part
when no frames were captured. -/
def imagePartsOf (sd : ScanData) : List Part :=
  match sd.capturedFrames with
  | [] => [.text "No visual data provided."]
  | fs =>
    (fs.enum.map fun fi =>
      [Part.inlineData "image/jpeg" fi.2.image,
       Part.text ("--- Visual Data Segment " ++ toString (fi.1 + 1) ++
         " Captured at Heading " ++ jsToFixed1Q fi.2.heading ++
         " degrees (Vastu Zone: " ++ fi.2.zone ++ ") ---")]).flatten

/-- The stage-1 query text of `generateCoreAssessment` (src/server.js:39-51);
`partsLen` is `parts.length`. -/
def coreQueryOf (sd : ScanData) (partsLen : Nat) : String :=
  "\n        CRITICAL INSTRUCTION: You are a Vastu Analyst AI. Analyze the provided " ++
  toString (partsLen - 1) ++ " visual segments \n" ++
  "        and the following room context: Room: " ++ sd.currentRoomTag ++
  ", Location: " ++ jsDisplay sd.roomLocationInHouse ++ ", \n" ++
  "        Concerns: " ++ sd.holisticIssues ++ ".\n" ++
  "        \n" ++
  "        CRITICAL TASK: Your SOLE output must be a concise, bulleted list of the top 5 to 7 most severe Vastu defects found in this area.\n" ++
  "        Focus ONLY on factual defects (directional, elemental, positional) and use simple language.\n" ++
  "        \n" ++
  "        Start with the exact bold markdown title: \n" ++
  "        **Core Vastu Assessment (Defects Found)**\n" ++
  "        \n" ++
  "        Followed by a list using dashes (-). Do NOT include remedies.\n    "

/-- The `sharedContext` template of `getAiQuery` (src/server.js:92-104). -/
def sharedContextOf (sd : ScanData) (coreAssessment cuspWarning : String) : String :=
  "\n        " ++ cuspWarning ++ " \n\n" ++
  "        CORE VASTU FINDINGS (MUST BE USED AS THE BASIS FOR ALL REMEDIES):\n" ++
  "        " ++ coreAssessment ++ "\n" ++
  "        \n" ++
  "        CONTEXT FOR THIS REPORT:\n" ++
  "        - Area Scanned: " ++ sd.currentRoomTag ++ "\n" ++
  "        - Location (C-Point): The " ++ sd.currentRoomTag ++ " is in the " ++
  (if jsFalsy sd.roomLocationInHouse then "UNKNOWN" else jsDisplay sd.roomLocationInHouse) ++
  " zone of the house.\n" ++
  "        - Floor: " ++ (if jsFalsy sd.floorNumber then "N/A" else jsDisplay sd.floorNumber) ++ "\n" ++
  "        - User\x27s Concerns: " ++ sd.holisticIssues ++ "\n" ++
  "        - Property Surroundings: " ++ sd.holisticSurroundings ++ "\n    "

/-- `getAiQuery` (src/server.js:82-167): the text-only stage-2 prompt, in
its deep-analysis and standard variants, both embedding `sharedContext`
(and through it the cusp warning) at the top. -/
def getAiQuery (sd : ScanData) (isDeepAnalysis : Bool) (coreAssessment cuspWarning : String) : String :=
  let sharedContext := sharedContextOf sd coreAssessment cuspWarning
  if isDeepAnalysis then
    "\n            CRITICAL INSTRUCTION: You are a Master Vastu Shastra Analyst AI, specializing in structural and permanent solutions.\n" ++
    "            Your task is to provide an EXPERT-LEVEL, STRUCTURAL Analysis based **EXCLUSIVELY** on the Core Vastu Findings provided below.\n" ++
    "            \n            " ++ sharedContext ++ "\n            \n" ++
    "            CRITICAL TASK:\n" ++
    "            Do NOT write a full report. Provide a structural analysis focusing on the defects in the CORE VASTU FINDINGS.\n" ++
    "            \n" ++
    "            Start with this exact title (using bold markdown):\n" ++
    "            **Expert Analysis (Structural Recommendations)**\n" ++
    "            \n" ++
    "            Then, add this disclaimer on a new line:\n" ++
    "            \"The following are high-stakes, structural remedies a professional consultant might suggest. These are major changes and should be considered carefully.\"\n" ++
    "            \n" ++
    "            Then, create two subsections, both using bullet points (using a dash \"-\"):\n" ++
    "            \n" ++
    "            **Minor Structural Recommendations**\n" ++
    "            (List minor demolition/construction remedies that address the core defects.)\n" ++
    "            \n" ++
    "            **Major Structural Recommendations**\n" ++
    "            (List high-stakes demolition/construction remedies that address the core defects.)\n" ++
    "            \n" ++
    "            Formatting: Use bullet points (using -). You MUST use **bold markdown** for the main title and two sub-section titles.\n        "
  else
    "\n            CRITICAL INSTRUCTION: You are a Master Vastu Shastra Analyst AI, specializing in non-structural, actionable remedies.\n" ++
    "            Your response must be a single, structured Vastu Report, following all instructions below exactly. Use the Core Vastu Findings to guide your report.\n" ++
    "            \n            " ++ sharedContext ++ "\n\n" ++
    "            Based on ALL this data, provide a comprehensive report. Tailor your analysis and remedies in Section I and IV to address the user\x27s primary concerns and the CORE VASTU FINDINGS.\n" ++
    "            \n" ++
    "            The report must be structured into FIVE consecutive sections. Use **bold markdown** for all section titles:\n\n" ++
    "            **I. Executive Summary (Layman\x27s Terms)**: Simple summary. Cover the 2-3 most critical findings (from CORE ASSESSMENT) and non-structural remedies.\n" ++
    "            Ensure you mention the Vastu Zone compliance of the scanned area (" ++ sd.currentRoomTag ++
    ") based on its location (" ++ jsDisplay sd.roomLocationInHouse ++ ").\n\n" ++
    "            **II. Directional Data and Environmental Assessment**: Technical analysis of the observed headings and Vastu zones.\n\n" ++
    "            **III. Analysis of Vastu Compliance**: Technical findings, issues, and defects found, explicitly referencing the points in the CORE ASSESSMENT.\n\n" ++
    "            **IV. Remedial Recommendations (Advanced)**: CRITICAL: This section MUST use bullet points (using a dash \"-\"). Structure this section into two sub-sections using **bold markdown**. All remedies must be NON-STRUCTURAL.\n" ++
    "            **Minor Defects & Remedies**\n" ++
    "            (List non-structural remedies here.)\n" ++
    "            **Major Defects & Remedies**\n" ++
    "            (List more significant NON-STRUCTURAL remedies here.)\n" ++
    "            \n" ++
    "            **V. Vastu Tips & Remedies (Actionable Advice)**: A short, separate section offering quick, general Vastu tips related to this specific room type.\n" ++
    "            \n" ++
    "            If the CUSP WARNING was provided in the context, you MUST also add a brief section titled:\n" ++
    "            **\"VI. Cusp Analysis (Alternate Zone)\"**\n" ++
    "            Briefly list 2-3 key Vastu defects that would apply if the room were in the alternate zone mentioned in the warning.\n\n" ++
    "            Formatting requirements: Use paragraph breaks for readability. You MUST use bullet points (using -). You MUST use **bold markdown** for all section and sub-section titles.\n        "

/-- Outcome of one external model call, as seen by the awaiting handler:
a successful response carrying the optional candidate text
(`result.candidates?.[0]?.content?.parts?.[0]?.text`), a non-success HTTP
response with its status and body text, or a transport error (rejected
fetch / timeout) with its message. -/
inductive FetchOutcome where
  | ok (candidateText : Option String)
  | httpError (status : Nat) (body : String)
  | transport (msg : String)
deriving DecidableEq

/-- Whether the awaited call failed (non-success response or transport
error). -/
def isFailure : FetchOutcome → Bool
  | .ok _ => false
  | _ => true

/-- The fallback text substituted when the stage-1 response has no candidate
text (src/server.js:78). -/
def coreAssessmentFallback : String :=
  "**Core Vastu Assessment (Defects Found)**\n- Assessment failed to generate. Please rescan."

/-- `generateCoreAssessment` (src/server.js:36-79) parameterized by the
outcome of its awaited fetch: a thrown error for a non-ok response
(`Google API Error (Core Assessment): status - body`) or a transport error,
otherwise the candidate text or the fallback string. -/
def generateCoreAssessment (o : FetchOutcome) : Except String String :=
  match o with
  | .ok t => .ok (t.getD coreAssessmentFallback)
  | .httpError s b => .error ("Google API Error (Core Assessment): " ++ toString s ++ " - " ++ b)
  | .transport m => .error m

/-- The stage-2 (final report) fetch of the route (src/server.js:235-247):
a thrown error for a non-ok response (`Google API Error (Final Report): ...`)
or transport error, otherwise the candidate text or `""`. -/
def finalReportCall (o : FetchOutcome) : Except String String :=
  match o with
  | .ok t => .ok (t.getD "")
  | .httpError s b => .error ("Google API Error (Final Report): " ++ toString s ++ " - " ++ b)
  | .transport m => .error m

/-- The JSON body of the route's response: `{ text }` on success or
`{ error }` on failure. -/
inductive ReportJson where
  | text (t : String)
  | error (e : String)
deriving DecidableEq

/-- An HTTP response of the report endpoint: status code plus JSON body. -/
structure ReportResponse where
  status : Nat
  json : ReportJson
deriving DecidableEq

/-- `POST /api/generateReport` (src/server.js:170-258), as a function of the
request (`isDeepAnalysis`, `scanData`), the configuration (`apiKey` present)
and the outcomes of the two awaited external calls.  Returns the HTTP
response together with the number of external calls performed (`0`, `1` or
`2`): a stage-1 failure throws into the route's catch before the stage-2
call is ever started. -/
def generateReportRoute (apiKey : Bool) (isDeepAnalysis : Bool) (sd : ScanData)
    (o1 o2 : FetchOutcome) : ReportResponse × Nat :=
  if !apiKey then (⟨500, .error "Server API Key is not configured."⟩, 0)
  else
    let cuspWarning := cuspWarningString sd.roomLocationInHouse
    match generateCoreAssessment o1 with
    | .error e => (⟨500, .error e⟩, 1)
    | .ok coreAssessment =>
      let _userQuery := getAiQuery sd isDeepAnalysis coreAssessment cuspWarning
      match finalReportCall o2 with
      | .error e => (⟨500, .error e⟩, 2)
      | .ok aiResponse =>
        (⟨200, .text (coreAssessment ++ "\n\n---\n\n" ++ aiResponse)⟩, 2)

/-- The stage-2 prompt the route sends (the `userQuery` built at
src/server.js:220 and posted as the body of the second call): `getAiQuery`
applied to the computed cusp-warning string. -/
def reportStage2Query (sd : ScanData) (isDeepAnalysis : Bool) (coreAssessment : String) : String :=
  getAiQuery sd isDeepAnalysis coreAssessment (cuspWarningString sd.roomLocationInHouse)

/-- The set of zone boundaries is `{ 11.25 + 22.5·k | k ∈ ℤ }` (the 16-zone
wheel tiles the circle, so reducing mod 360 adds no further boundaries).
`zonePos a` is the angular position of `a` within its zone, i.e. the
distance from `a` up from the boundary below it. -/
def zonePos (a : ℚ) : ℚ :=
  qmod (a + 11.25) 22.5

/-- Distance from the angle `a` to the nearest zone boundary (the spec-side
notion used in "strictly more than 10° from every zone boundary"). -/
def distToBoundary (a : ℚ) : ℚ :=
  min (zonePos a) (22.5 - zonePos a)

/-- Modelled from the spec: the leading numbered marker `"k."` the tagging
step of the Report Orchestrator looks for at the start of a line.  The
tagging code itself is not part of the sources under src/ (the src revisions
only carry the placeholder markers inside the prompt template); this section
models section 4.4 step 3 of the spec over text represented as a list of
lines, each a list of characters. -/
def numMark (k : Nat) : List Char :=
  [Nat.digitChar k, '.']

/-- Modelled from the spec: the fixed placeholder marker
`"[IMAGE_k_ANALYSIS]"` substituted for the `k`-th numbered finding. -/
def markTag (k : Nat) : List Char :=
  ['[', 'I', 'M', 'A', 'G', 'E', '_'] ++ [Nat.digitChar k] ++
    ['_', 'A', 'N', 'A', 'L', 'Y', 'S', 'I', 'S', ']']

/-- Boolean prefix test on character lists. -/
def leadsWith : List Char → List Char → Bool
  | [], _ => true
  | _ :: _, [] => false
  | p :: ps, c :: cs => p == c && leadsWith ps cs

/-- Modelled from the spec: one line-anchored substitution — replace the
first line beginning with `"k."` by the placeholder marker immediately
followed by the line's remaining content (the match stops at the next
numbered marker or end of text, i.e. at the end of the line's own slot). -/
def tagOne (k : Nat) : List (List Char) → List (List Char)
  | [] => []
  | l :: ls =>
    if leadsWith (numMark k) l then
      (markTag k ++ l.drop (numMark k).length) :: ls
    else
      l :: tagOne k ls

/-- Whether a line still carries a bare leading numeric marker
`"digits."`. -/
def hasNumMark (l : List Char) : Bool :=
  let ds := l.takeWhile Char.isDigit
  if ds.length = 0 then false
  else
    match l.drop ds.length with
    | '.' :: _ => true
    | _ => false

/-- Modelled from the spec: the defensive cleanup after the 8 substitutions —
strip any residual leading `"digits."` pattern left on a line. -/
def stripLead (l : List Char) : List Char :=
  let ds := l.takeWhile Char.isDigit
  if ds.length = 0 then l
  else
    match l.drop ds.length with
    | '.' :: rest => rest
    | _ => l

/-- Modelled from the spec: the tagging post-process of the Report
Orchestrator (spec section 4.4 step 3) — substitute the markers for
`k = 1..8` in sequence, then apply the residual cleanup to every line. -/
def tagStage1 (lines : List (List Char)) : List (List Char) :=
  (([1, 2, 3, 4, 5, 6, 7, 8].foldl (fun acc k => tagOne k acc) lines).map stripLead)

/-! ### Arithmetic facts about `qmod`, `jsRem` and the zone index -/

theorem qmod_eq_fract (x : ℚ) {y : ℚ} (hy : y ≠ 0) : qmod x y = y * Int.fract (x / y) := by
  rw [qmod, Int.fract, mul_sub, mul_div_cancel₀ x hy]

theorem qmod_nonneg (x : ℚ) {y : ℚ} (hy : 0 < y) : 0 ≤ qmod x y := by
  rw [qmod_eq_fract x hy.ne']
  exact mul_nonneg hy.le (Int.fract_nonneg _)

theorem qmod_lt (x : ℚ) {y : ℚ} (hy : 0 < y) : qmod x y < y := by
  rw [qmod_eq_fract x hy.ne']
  calc y * Int.fract (x / y) < y * 1 :=
        mul_lt_mul_of_pos_left (Int.fract_lt_one _) hy
    _ = y := mul_one y

theorem qmod_add_int_mul (x : ℚ) {y : ℚ} (hy : y ≠ 0) (k : ℤ) :
    qmod (x + y * k) y = qmod x y := by
  rw [qmod_eq_fract _ hy, qmod_eq_fract _ hy, add_div, mul_div_cancel_left₀ _ hy,
    Int.fract_add_int]

theorem qmod_small {x y : ℚ} (h0 : 0 ≤ x) (h1 : x < y) : qmod x y = x := by
  have hy : 0 < y := lt_of_le_of_lt h0 h1
  have : ⌊x / y⌋ = 0 := by
    rw [Int.floor_eq_zero_iff]
    exact ⟨div_nonneg h0 hy.le, by rwa [div_lt_one hy]⟩
  rw [qmod, this]
  push_cast
  ring

/-- Adding to a reduced residue and reducing again is reducing the original
sum: `qmod (qmod x y + c) y = qmod (x + c) y`. -/
theorem qmod_qmod_add (x c : ℚ) {y : ℚ} (hy : y ≠ 0) :
    qmod (qmod x y + c) y = qmod (x + c) y := by
  have : qmod x y + c = (x + c) + y * (-⌊x / y⌋ : ℤ) := by
    rw [qmod]
    push_cast
    ring
  rw [this, qmod_add_int_mul _ hy]

/-- `22.5` divides `360`, so reducing mod `360` does not change the residue
mod `22.5`. -/
theorem qmod_cascade (x : ℚ) : qmod (qmod x 360) 22.5 = qmod x 22.5 := by
  have : qmod x 360 = x + 22.5 * ((-(16 * ⌊x / 360⌋) : ℤ) : ℚ) := by
    rw [qmod]
    push_cast
    ring
  rw [this, qmod_add_int_mul _ (by norm_num)]

theorem jsRem_eq_qmod {x y : ℚ} (h0 : 0 ≤ x) (hy : 0 < y) : jsRem x y = qmod x y := by
  rw [jsRem, qmod, qtrunc, if_pos (div_nonneg h0 hy.le)]

theorem tmod_small {i : ℤ} (h0 : 0 ≤ i) (h1 : i < 16) : i.tmod 16 = i := by
  obtain ⟨n, rfl⟩ := Int.eq_ofNat_of_zero_le h0
  show Int.ofNat (n % 16) = Int.ofNat n
  have : n < 16 := by exact_mod_cast h1
  rw [Nat.mod_eq_of_lt this]

theorem floor_div_225 (r : ℚ) (m : ℤ) (hp0 : 0 ≤ r - 22.5 * m) (hp1 : r - 22.5 * m < 22.5) :
    ⌊r / 22.5⌋ = m := by
  rw [Int.floor_eq_iff]
  constructor
  · rw [le_div_iff₀ (by norm_num : (0:ℚ) < 22.5)]
    linarith
  · rw [div_lt_iff₀ (by norm_num : (0:ℚ) < 22.5)]
    linarith

/-- The zone index computed from the mathematical residue; for nonnegative
shifted inputs it coincides with what `getVastuZone` computes. -/
def mathIndex (d : ℚ) : ℤ :=
  ⌊qmod (d + 11.25) 360 / 22.5⌋

theorem mathIndex_nonneg (d : ℚ) : 0 ≤ mathIndex d :=
  Int.floor_nonneg.mpr (div_nonneg (qmod_nonneg _ (by norm_num)) (by norm_num))

theorem mathIndex_lt (d : ℚ) : mathIndex d < 16 := by
  have h := qmod_lt (d + 11.25) (show (0:ℚ) < 360 by norm_num)
  refine Int.floor_lt.mpr ?_
  rw [div_lt_iff₀ (by norm_num : (0:ℚ) < 22.5)]
  push_cast
  linarith

/-- On inputs with `0 ≤ d + 11.25` (in particular all nonnegative `d`), the
JS remainder agrees with the mathematical residue and the `% 16` step is the
identity, so `getVastuZone` is the table lookup at `mathIndex d`. -/
theorem getVastuZoneQ_eq_of_nonneg {d : ℚ} (h : 0 ≤ d + 11.25) :
    getVastuZoneQ d = jsArrayGet VASTU_ZONES_16 (mathIndex d) := by
  simp only [getVastuZoneQ, mathIndex]
  rw [jsRem_eq_qmod h (by norm_num)]
  rw [tmod_small (Int.floor_nonneg.mpr (div_nonneg (qmod_nonneg _ (by norm_num)) (by norm_num)))
    (by
      have h2 := qmod_lt (d + 11.25) (show (0:ℚ) < 360 by norm_num)
      refine Int.floor_lt.mpr ?_
      rw [div_lt_iff₀ (by norm_num : (0:ℚ) < 22.5)]
      push_cast
      linarith)]

/-- The heart of the cusp-interior property: for any angle at least `-11.25`
whose position inside its zone is strictly between `10` and `12.5` (i.e.
strictly more than `10°` away from both adjacent boundaries), the two
perturbed classifications agree with the primary one. -/
theorem cusp_interior {a : ℚ} (ha : -11.25 ≤ a)
    (h10 : 10 < zonePos a) (h125 : zonePos a < 12.5) :
    cuspZone2 (.num a) = cuspZone1 (.num a) ∧ cuspZone3 (.num a) = cuspZone1 (.num a) := by
  have ha' : 0 ≤ a + 11.25 := by linarith
  set r := qmod (a + 11.25) 360 with hr
  have hr0 : 0 ≤ r := qmod_nonneg _ (by norm_num)
  have hr360 : r < 360 := qmod_lt _ (by norm_num)
  set m := ⌊r / 22.5⌋ with hm
  have hp : zonePos a = r - 22.5 * m := by
    rw [zonePos, ← qmod_cascade (a + 11.25), ← hr, qmod, ← hm]
  have hpr : (10:ℚ) < r - 22.5 * m := hp ▸ h10
  have hpr' : r - 22.5 * m < 12.5 := hp ▸ h125
  have hm0 : 0 ≤ m := hm ▸ Int.floor_nonneg.mpr (div_nonneg hr0 (by norm_num))
  have hm15 : m ≤ 15 := by
    have : m < 16 := by
      rw [hm]
      refine Int.floor_lt.mpr ?_
      rw [div_lt_iff₀ (by norm_num : (0:ℚ) < 22.5)]
      push_cast
      linarith
    omega
  have hm0' : (0:ℚ) ≤ (m:ℚ) := by exact_mod_cast hm0
  have hm15' : (m:ℚ) ≤ 15 := by exact_mod_cast hm15
  have hr10 : (10:ℚ) < r := by linarith
  have hr350 : r < 350 := by linarith
  have hz1 : cuspZone1 (.num a) = jsArrayGet VASTU_ZONES_16 m := by
    rw [cuspZone1, getVastuZoneN, getVastuZoneQ_eq_of_nonneg ha']
    rw [mathIndex, ← hr, ← hm]
  have ha10 : 0 ≤ a + 10 := by
    by_cases hc : a + 11.25 < 360
    · have : r = a + 11.25 := hr ▸ qmod_small ha' hc
      linarith
    · linarith
  constructor
  · -- zone2 = zone1
    have hx2 : 0 ≤ qmod (a + 10) 360 := qmod_nonneg _ (by norm_num)
    have hres : qmod (qmod (a + 10) 360 + 11.25) 360 = r + 10 := by
      rw [qmod_qmod_add _ _ (by norm_num : (360:ℚ) ≠ 0)]
      have harg : a + 10 + 11.25 = a + 11.25 + 10 := by ring
      rw [harg, ← qmod_qmod_add (a + 11.25) 10 (by norm_num : (360:ℚ) ≠ 0), ← hr]
      exact qmod_small (by linarith) (by linarith)
    have hidx : mathIndex (qmod (a + 10) 360) = m := by
      rw [mathIndex, hres]
      exact floor_div_225 _ _ (by linarith) (by linarith)
    rw [cuspZone2, jsAdd, jsRemN, if_neg (by norm_num : ¬(360:ℚ) = 0),
      jsRem_eq_qmod ha10 (by norm_num), getVastuZoneN,
      getVastuZoneQ_eq_of_nonneg (by linarith), hidx, hz1]
  · -- zone3 = zone1
    have ha350 : 0 ≤ a - 10 + 360 := by linarith
    have hx3 : 0 ≤ qmod (a - 10 + 360) 360 := qmod_nonneg _ (by norm_num)
    have hres : qmod (qmod (a - 10 + 360) 360 + 11.25) 360 = r - 10 := by
      rw [qmod_qmod_add _ _ (by norm_num : (360:ℚ) ≠ 0)]
      have harg : a - 10 + 360 + 11.25 = (a + 11.25 + -10) + 360 * ((1:ℤ):ℚ) := by
        push_cast
        ring
      rw [harg, qmod_add_int_mul _ (by norm_num : (360:ℚ) ≠ 0),
        ← qmod_qmod_add (a + 11.25) (-10) (by norm_num : (360:ℚ) ≠ 0), ← hr]
      rw [qmod_small (show (0:ℚ) ≤ r + -10 by linarith) (show r + -10 < (360:ℚ) by linarith)]
      ring
    have hidx : mathIndex (qmod (a - 10 + 360) 360) = m := by
      rw [mathIndex, hres]
      exact floor_div_225 _ _ (by linarith) (by linarith)
    rw [cuspZone3, jsSub, jsAdd, jsRemN, if_neg (by norm_num : ¬(360:ℚ) = 0),
      jsRem_eq_qmod ha350 (by norm_num), getVastuZoneN,
      getVastuZoneQ_eq_of_nonneg (by linarith), hidx, hz1]

/-! ### Claims -/

/-- C7: for every `d` in the half-open interval `[-11.25, 11.25)`,
`classifyZone d` (i.e. `getVastuZone`) returns `"N"`. -/
theorem c7_north_interval {d : ℚ} (h0 : -11.25 ≤ d) (h1 : d < 11.25) :
    getVastuZoneQ d = some "N" := by
  have ha : 0 ≤ d + 11.25 := by linarith
  rw [getVastuZoneQ_eq_of_nonneg ha]
  have hidx : mathIndex d = 0 := by
    rw [mathIndex, qmod_small ha (by linarith)]
    exact floor_div_225 _ 0 (by push_cast; linarith) (by push_cast; linarith)
  rw [hidx]
  rfl

theorem c7_north_interval_witness :
    -11.25 ≤ (3:ℚ) ∧ (3:ℚ) < 11.25 ∧ getVastuZoneQ 3 = some "N" :=
  ⟨by norm_num, by norm_num, c7_north_interval (by norm_num) (by norm_num)⟩

/-- C2 (counterexample): the classifier is not total over finite reals — at
`-20` the JS remainder is negative, the index is `-1`, and the array read
yields `undefined` rather than one of the 16 labels. -/
theorem c2_totality_cex : getVastuZoneQ (-20) = none := by
  norm_num [getVastuZoneQ, jsRem, qtrunc, jsArrayGet, VASTU_ZONES_16] <;> decide

/-- C2 (amended): for every finite real `d ≥ -11.25` (in particular every
`d ≥ 0`), the classifier returns exactly one of the 16 fixed zone labels. -/
theorem c2_total_on_nonneg {d : ℚ} (h : -11.25 ≤ d) :
    ∃ z, getVastuZoneQ d = some z ∧ z ∈ VASTU_ZONES_16 := by
  rw [getVastuZoneQ_eq_of_nonneg (by linarith)]
  have h0 := mathIndex_nonneg d
  have h16 := mathIndex_lt d
  rw [jsArrayGet, if_pos h0]
  have hlen : (mathIndex d).toNat < VASTU_ZONES_16.length := by
    have : (mathIndex d).toNat < 16 := by omega
    simpa [VASTU_ZONES_16] using this
  refine ⟨VASTU_ZONES_16[(mathIndex d).toNat], ?_, List.getElem_mem hlen⟩
  exact List.getElem?_eq_getElem hlen

theorem c2_total_on_nonneg_witness :
    -11.25 ≤ (100:ℚ) ∧ ∃ z, getVastuZoneQ 100 = some z ∧ z ∈ VASTU_ZONES_16 :=
  ⟨by norm_num, c2_total_on_nonneg (by norm_num)⟩

/-- C4 (counterexample): periodicity fails across the sign change of the JS
remainder — `getVastuZone 20` is `"NNE"` but `getVastuZone (20 + 360·(-1))`,
i.e. `getVastuZone (-340)`, is `undefined`. -/
theorem c4_periodicity_cex :
    getVastuZoneQ (20 + 360 * ((-1 : ℤ) : ℚ)) ≠ getVastuZoneQ 20 := by
  have harg : (20:ℚ) + 360 * ((-1 : ℤ) : ℚ) = -340 := by norm_num
  have e1 : getVastuZoneQ (-340) = none := by
    norm_num [getVastuZoneQ, jsRem, qtrunc, jsArrayGet, VASTU_ZONES_16] <;> decide
  have e2 : getVastuZoneQ 20 = some "NNE" := by
    norm_num [getVastuZoneQ, jsRem, qtrunc, jsArrayGet, VASTU_ZONES_16] <;> decide
  rw [harg, e1, e2]
  simp

/-- C4 (amended): `classifyZone (d + 360·k) = classifyZone d` whenever both
shifted inputs stay at or above the `-11.25` threshold, i.e. on the domain
where the JS remainder agrees with the mathematical one. -/
theorem c4_periodicity (d : ℚ) (k : ℤ) (h1 : 0 ≤ d + 11.25)
    (h2 : 0 ≤ d + 360 * (k : ℚ) + 11.25) :
    getVastuZoneQ (d + 360 * (k : ℚ)) = getVastuZoneQ d := by
  rw [getVastuZoneQ_eq_of_nonneg (by linarith), getVastuZoneQ_eq_of_nonneg h1]
  have hq : qmod (d + 360 * (k : ℚ) + 11.25) 360 = qmod (d + 11.25) 360 := by
    have harg : d + 360 * (k : ℚ) + 11.25 = (d + 11.25) + 360 * (k : ℚ) := by ring
    rw [harg, qmod_add_int_mul _ (by norm_num : (360:ℚ) ≠ 0)]
  rw [mathIndex, mathIndex, hq]

theorem c4_periodicity_witness :
    0 ≤ (20:ℚ) + 11.25 ∧ 0 ≤ (20:ℚ) + 360 * ((1:ℤ):ℚ) + 11.25 ∧
    getVastuZoneQ (20 + 360 * ((1:ℤ):ℚ)) = getVastuZoneQ 20 :=
  ⟨by norm_num, by norm_num, c4_periodicity 20 1 (by norm_num) (by norm_num)⟩

/-- C1 (counterexample): at `-90`, an angle strictly more than `10°` from
every zone boundary (its in-zone position is exactly the zone centre,
`11.25°` from each boundary), the code nevertheless produces a cusp warning:
`zone1` and `zone2` evaluate to `undefined` while `zone3` is `"W"`, so the
inequality test fires. -/
theorem c1_cusp_cex :
    10 < distToBoundary (-90) ∧ (computeCusp (.number (.num (-90)))).isSome = true := by
  constructor
  · norm_num [distToBoundary, zonePos, qmod]
  · have e1 : cuspZone1 (.num (-90)) = none := by
      norm_num [cuspZone1, getVastuZoneN, getVastuZoneQ, jsRem, qtrunc, jsArrayGet,
        VASTU_ZONES_16] <;> decide
    have e3 : cuspZone3 (.num (-90)) = some "W" := by
      norm_num [cuspZone3, jsSub, jsAdd, jsRemN, getVastuZoneN, getVastuZoneQ, jsRem,
        qtrunc, jsArrayGet, VASTU_ZONES_16] <;> decide
    have hg : jsNeqZero (JsNum.num (-90)) = true := by norm_num [jsNeqZero]
    simp only [computeCusp, hg, if_true]
    rw [if_pos (Or.inr (by rw [e1, e3]; simp))]
    rfl

/-- C1 (amended): for every numeric, non-zero location angle the warning is
produced iff the primary classification differs from one of the two
perturbed ones, the alternate zone reported is the differing perturbed
classification (preferring the `+10°` one); and the "no warning strictly
more than `10°` from every boundary" clause holds for every angle
`≥ -11.25` (for angles below `-11.25` the classifier returns `undefined` and
spurious warnings occur, as the counterexample shows). -/
theorem c1_cusp_amended (n : JsNum) (hn : jsNeqZero n = true) :
    ((computeCusp (.number n)).isSome = true ↔
      (cuspZone1 n ≠ cuspZone2 n ∨ cuspZone1 n ≠ cuspZone3 n)) ∧
    (∀ w, computeCusp (.number n) = some w →
      w.zone1 = cuspZone1 n ∧
      w.otherZone = if cuspZone1 n ≠ cuspZone2 n then cuspZone2 n else cuspZone3 n) ∧
    (∀ a : ℚ, n = .num a → -11.25 ≤ a → 10 < distToBoundary a →
      computeCusp (.number n) = none) := by
  refine ⟨?_, ?_, ?_⟩
  · simp only [computeCusp, hn, if_true]
    by_cases hc : cuspZone1 n ≠ cuspZone2 n ∨ cuspZone1 n ≠ cuspZone3 n
    · rw [if_pos hc]
      simpa using hc
    · rw [if_neg hc]
      simpa using hc
  · intro w hw
    simp only [computeCusp, hn, if_true] at hw
    by_cases hc : cuspZone1 n ≠ cuspZone2 n ∨ cuspZone1 n ≠ cuspZone3 n
    · rw [if_pos hc] at hw
      cases hw
      exact ⟨rfl, rfl⟩
    · rw [if_neg hc] at hw
      cases hw
  · intro a hna ha hd
    subst hna
    have h10 : 10 < zonePos a := lt_of_lt_of_le hd (min_le_left _ _)
    have h125 : zonePos a < 12.5 := by
      have := lt_of_lt_of_le hd (min_le_right _ _)
      linarith
    obtain ⟨hz2, hz3⟩ := cusp_interior ha h10 h125
    simp only [computeCusp, hn, if_true]
    rw [if_neg (by rw [hz2, hz3]; simp)]

theorem c1_cusp_amended_witness :
    (computeCusp (.number (.num 35))).isSome = true ↔
      (cuspZone1 (.num 35) ≠ cuspZone2 (.num 35) ∨
       cuspZone1 (.num 35) ≠ cuspZone3 (.num 35)) :=
  (c1_cusp_amended (.num 35) (by norm_num [jsNeqZero])).1

/-- A concrete scan request used to exercise the endpoint model on a locked
angle of `45.0`. -/
def sampleScan45 : ScanData :=
  ⟨"Kitchen", .number (.num 45), .str "1", "health", "open field", []⟩

/-- Evaluation of the three cusp classifications at the locked angle `45.0`:
all three are `"NE"`, so the warning condition does not fire. -/
theorem cusp45_zones :
    cuspZone1 (.num 45) = some "NE" ∧ cuspZone2 (.num 45) = some "NE" ∧
    cuspZone3 (.num 45) = some "NE" ∧ computeCusp (.number (.num 45)) = none := by
  have e1 : cuspZone1 (.num 45) = some "NE" := by
    norm_num [cuspZone1, getVastuZoneN, getVastuZoneQ, jsRem, qtrunc, jsArrayGet,
      VASTU_ZONES_16] <;> decide
  have e2 : cuspZone2 (.num 45) = some "NE" := by
    norm_num [cuspZone2, jsAdd, jsRemN, getVastuZoneN, getVastuZoneQ, jsRem, qtrunc,
      jsArrayGet, VASTU_ZONES_16] <;> decide
  have e3 : cuspZone3 (.num 45) = some "NE" := by
    norm_num [cuspZone3, jsSub, jsAdd, jsRemN, getVastuZoneN, getVastuZoneQ, jsRem,
      qtrunc, jsArrayGet, VASTU_ZONES_16] <;> decide
  refine ⟨e1, e2, e3, ?_⟩
  simp only [computeCusp, jsNeqZero]
  rw [if_pos (by norm_num)]
  rw [if_neg (by rw [e1, e2, e3]; simp)]

/-- C6 (counterexample): at a locked angle of exactly `45.0` no cusp warning
is produced at all — `45` is the centre of the `NE` arc (`33.75`..`56.25`),
`11.25°` from each boundary, outside the `10°` perturbation reach; so the
claimed warning naming `NE` and a neighbour does not exist. -/
theorem c6_cusp45_cex : computeCusp (.number (.num 45)) = none :=
  cusp45_zones.2.2.2

/-- C6 (amended): at `45.0` all three classifications equal `"NE"`, no cusp
warning is produced, the `cuspWarning` string stays empty, and the stage-2
prompt is assembled with the empty warning (so it contains no alternate-zone
cusp section heading). -/
theorem c6_cusp45_amended :
    cuspZone1 (.num 45) = some "NE" ∧ cuspZone2 (.num 45) = some "NE" ∧
    cuspZone3 (.num 45) = some "NE" ∧ computeCusp (.number (.num 45)) = none ∧
    cuspWarningString (.number (.num 45)) = "" ∧
    reportStage2Query sampleScan45 false "CORE" = getAiQuery sampleScan45 false "CORE" "" := by
  obtain ⟨e1, e2, e3, hnone⟩ := cusp45_zones
  have hstr : cuspWarningString (.number (.num 45)) = "" := by
    rw [cuspWarningString, hnone]
    rfl
  exact ⟨e1, e2, e3, hnone, hstr, by rw [reportStage2Query, sampleScan45, hstr]⟩

/-- C8: when the location angle field is not of numeric type, or is the
number `0`, the cusp logic is skipped (`computeCusp` is `none`), the
`cuspWarning` string stays empty, and the stage-2 prompt the route sends is
exactly the prompt assembled with the empty warning string.  (The stage-1
prompt, `coreQueryOf`, does not take the warning at all.) -/
theorem c8_guard_skips_cusp (u : JsValue)
    (h : isNumberV u = false ∨ u = .number (.num 0)) :
    computeCusp u = none ∧ cuspWarningString u = "" ∧
    ∀ (sd : ScanData) (deep : Bool) (core : String), sd.roomLocationInHouse = u →
      reportStage2Query sd deep core = getAiQuery sd deep core "" := by
  have hnone : computeCusp u = none := by
    rcases h with h | h
    · cases u with
      | number n => simp [isNumberV] at h
      | str s => rfl
      | undef => rfl
    · subst h
      simp [computeCusp, jsNeqZero]
  have hstr : cuspWarningString u = "" := by
    rw [cuspWarningString, hnone]
    rfl
  refine ⟨hnone, hstr, ?_⟩
  intro sd deep core hsd
  rw [reportStage2Query, hsd, hstr]

theorem c8_guard_skips_cusp_witness : computeCusp (.number (.num 0)) = none :=
  (c8_guard_skips_cusp (.number (.num 0)) (Or.inr rfl)).1

/-- A concrete scan request whose location angle is `NaN`. -/
def sampleScanNan : ScanData :=
  ⟨"Bedroom", .number .nan, .undef, "sleep", "urban", []⟩

/-- C10: a `NaN` location angle passes the `typeof === 'number' && !== 0`
guard, all three classifications evaluate to the same `undefined` value, no
cusp warning is produced, and the report pipeline proceeds without raising:
with both external calls succeeding the endpoint returns status 200 and the
stitched report. -/
theorem c10_nan_angle :
    isNumberV (.number .nan) = true ∧ jsNeqZero .nan = true ∧
    cuspZone1 .nan = none ∧ cuspZone2 .nan = none ∧ cuspZone3 .nan = none ∧
    computeCusp (.number .nan) = none ∧
    (generateReportRoute true false sampleScanNan (.ok (some "CORE")) (.ok (some "BODY"))).1 =
      ⟨200, .text ("CORE" ++ "\n\n---\n\n" ++ "BODY")⟩ ∧
    (generateReportRoute true false sampleScanNan (.ok (some "CORE")) (.ok (some "BODY"))).2 = 2 := by
  refine ⟨rfl, rfl, rfl, rfl, rfl, ?_, ?_, ?_⟩
  · rfl
  · rfl
  · rfl

/-- A concrete scan request used as the fixed request in witnesses. -/
def sampleScan : ScanData :=
  ⟨"Hall", .number (.num 120), .str "2", "noise", "street", []⟩

/-- C5: whenever one of the two pipeline stages fails (non-success upstream
response or transport error), the endpoint returns a single 500 failure
whose error field carries the failing stage's thrown message (which embeds
the upstream error text), no report text is ever returned, and — when stage
1 is the one that failed — only one external call was performed, i.e. stage
2 never executed. -/
theorem c5_failure_short_circuit (deep : Bool) (sd : ScanData) (o1 o2 : FetchOutcome)
    (h : isFailure o1 = true ∨ isFailure o2 = true) :
    ∃ e, (generateReportRoute true deep sd o1 o2).1 = ⟨500, .error e⟩ ∧
      (isFailure o1 = true →
        generateCoreAssessment o1 = .error e ∧
        (generateReportRoute true deep sd o1 o2).2 = 1) ∧
      (isFailure o1 = false → finalReportCall o2 = .error e) := by
  cases o1 with
  | httpError s b =>
    exact ⟨"Google API Error (Core Assessment): " ++ toString s ++ " - " ++ b,
      rfl, fun _ => ⟨rfl, rfl⟩, fun hf => by simp [isFailure] at hf⟩
  | transport m =>
    exact ⟨m, rfl, fun _ => ⟨rfl, rfl⟩, fun hf => by simp [isFailure] at hf⟩
  | ok t =>
    have h2 : isFailure o2 = true := by
      rcases h with h | h
      · simp [isFailure] at h
      · exact h
    cases o2 with
    | ok t2 => simp [isFailure] at h2
    | httpError s b =>
      exact ⟨"Google API Error (Final Report): " ++ toString s ++ " - " ++ b,
        rfl, fun hf => by simp [isFailure] at hf, fun _ => rfl⟩
    | transport m =>
      exact ⟨m, rfl, fun hf => by simp [isFailure] at hf, fun _ => rfl⟩

theorem c5_failure_short_circuit_witness :
    ∃ e, (generateReportRoute true false sampleScan (.httpError 503 "overloaded") (.ok (some "B"))).1 =
        ⟨500, .error e⟩ ∧
      (isFailure (.httpError 503 "overloaded") = true →
        generateCoreAssessment (.httpError 503 "overloaded") = .error e ∧
        (generateReportRoute true false sampleScan (.httpError 503 "overloaded") (.ok (some "B"))).2 = 1) ∧
      (isFailure (.httpError 503 "overloaded") = false →
        finalReportCall (.ok (some "B")) = .error e) :=
  c5_failure_short_circuit false sampleScan (.httpError 503 "overloaded") (.ok (some "B"))
    (Or.inl rfl)

/-- C9: for every chat history whose user-authored messages carry exactly
one text part (as the client protocol produces them), the forwarded history
is the original one with each user message's text passed through the
emoji-stripping ruleset and every model-authored message unmodified. -/
theorem c9_chat_sanitization (h : List ChatMessage)
    (hw : ∀ m ∈ h, m.role = "user" → ∃ t, m.parts = [t]) :
    sanitizeHistory h = some (h.map specSanitizeMessage) := by
  induction h with
  | nil => rfl
  | cons m rest ih =>
    have hrest : ∀ m' ∈ rest, m'.role = "user" → ∃ t, m'.parts = [t] :=
      fun m' hm' => hw m' (List.mem_cons_of_mem _ hm')
    have hm : sanitizeMessage m = some (specSanitizeMessage m) := by
      by_cases hr : m.role = "user"
      · obtain ⟨t, ht⟩ := hw m (List.mem_cons_self _ _) hr
        rw [sanitizeMessage, if_pos hr, ht, specSanitizeMessage, if_pos hr, ht, ← hr]
        rfl
      · rw [sanitizeMessage, if_neg hr, specSanitizeMessage, if_neg hr]
    simp [sanitizeHistory, hm, ih hrest]

/-- A concrete two-message history: a user turn containing the pictographic
character `☀` (U+2600) and a model turn. -/
def sampleHistory : List ChatMessage :=
  [⟨"user", ["hi ☀ there"]⟩, ⟨"model", ["ok ☀"]⟩]

theorem c9_chat_sanitization_witness :
    sanitizeHistory sampleHistory = some (sampleHistory.map specSanitizeMessage) ∧
    sanitizeHistory sampleHistory =
      some [⟨"user", ["hi  there"]⟩, ⟨"model", ["ok ☀"]⟩] :=
  ⟨c9_chat_sanitization sampleHistory
    (by
      intro m hm hr
      rcases (by simpa [sampleHistory] using hm : m = ⟨"user", ["hi ☀ there"]⟩ ∨
          m = ⟨"model", ["ok ☀"]⟩) with h | h
      · exact ⟨"hi ☀ there", by rw [h]⟩
      · rw [h] at hr
        simp at hr),
   by decide⟩

/-- C3: for a stage-1 response consisting of exactly 8 well-formed numbered
lines `1.`..`8.` in increasing order (with arbitrary remaining content on
each line), the tagging post-process yields exactly the 8 placeholder
markers `[IMAGE_1_ANALYSIS]`..`[IMAGE_8_ANALYSIS]`, each immediately
followed by its line's original content, and no line retains a bare leading
numeric marker. -/
theorem c3_tagging (t1 t2 t3 t4 t5 t6 t7 t8 : List Char) :
    tagStage1 [numMark 1 ++ t1, numMark 2 ++ t2, numMark 3 ++ t3, numMark 4 ++ t4,
        numMark 5 ++ t5, numMark 6 ++ t6, numMark 7 ++ t7, numMark 8 ++ t8] =
      [markTag 1 ++ t1, markTag 2 ++ t2, markTag 3 ++ t3, markTag 4 ++ t4,
        markTag 5 ++ t5, markTag 6 ++ t6, markTag 7 ++ t7, markTag 8 ++ t8] ∧
    ∀ l ∈ tagStage1 [numMark 1 ++ t1, numMark 2 ++ t2, numMark 3 ++ t3, numMark 4 ++ t4,
        numMark 5 ++ t5, numMark 6 ++ t6, numMark 7 ++ t7, numMark 8 ++ t8],
      hasNumMark l = false := by
  have he : tagStage1 [numMark 1 ++ t1, numMark 2 ++ t2, numMark 3 ++ t3, numMark 4 ++ t4,
      numMark 5 ++ t5, numMark 6 ++ t6, numMark 7 ++ t7, numMark 8 ++ t8] =
      [markTag 1 ++ t1, markTag 2 ++ t2, markTag 3 ++ t3, markTag 4 ++ t4,
        markTag 5 ++ t5, markTag 6 ++ t6, markTag 7 ++ t7, markTag 8 ++ t8] := rfl
  refine ⟨he, ?_⟩
  rw [he]
  intro l hl
  simp only [List.mem_cons, List.not_mem_nil, or_false] at hl
  rcases hl with rfl | rfl | rfl | rfl | rfl | rfl | rfl | rfl <;> rfl

theorem c3_tagging_witness :
    tagStage1 [numMark 1 ++ [' ', 'a'], numMark 2 ++ [' ', 'b'], numMark 3 ++ [' ', 'c'],
        numMark 4 ++ [' ', 'd'], numMark 5 ++ [' ', 'e'], numMark 6 ++ [' ', 'f'],
        numMark 7 ++ [' ', 'g'], numMark 8 ++ [' ', 'h']] =
      [markTag 1 ++ [' ', 'a'], markTag 2 ++ [' ', 'b'], markTag 3 ++ [' ', 'c'],
        markTag 4 ++ [' ', 'd'], markTag 5 ++ [' ', 'e'], markTag 6 ++ [' ', 'f'],
        markTag 7 ++ [' ', 'g'], markTag 8 ++ [' ', 'h']] :=
  (c3_tagging [' ', 'a'] [' ', 'b'] [' ', 'c'] [' ', 'd'] [' ', 'e'] [' ', 'f']
    [' ', 'g'] [' ', 'h']).1

end VastuServer
